import Mathlib

/-!
Verification of the srcds_proxy UDP read/dispatch core.

Shallow embedding of:
- `src/proxy/srcds/proxy.go` — `Dial`, `Listen`, `Serve`, `doHandle`,
  `setSRCSConnectionOptions`;
- `src/unnamed/part_000` — the buffer pool (`GetBufferPool`, `newBuffer`,
  `Put`, `Get`).

Go errors are modelled as `Option GoError` (with `none` for `nil`), OS socket
operations as an oracle record `NetOps`, and the environment feeding `Serve`
(bytes delivered by each `ReadFromUDP`, the state of the `done` channel at the
non-blocking `select` check, and the result of `timer.Reset`) as a trace of
`IterEnv` events.
-/

/-- Errors are abstract values; `none` models Go's `nil` error. -/
abbrev GoError := Nat

/-- A resolved UDP address (`*net.UDPAddr`), abstract. -/
abbrev UDPAddr := Nat

/-- An open UDP socket (`*net.UDPConn`), abstract. -/
abbrev UDPConn := Nat

/-- Modelled from the spec: `MaxDatagramSize` is referenced by `proxy.go` and
the buffer-pool file but its defining constant is not under `src/`; the spec
fixes only that it is one fixed positive upper bound on datagram size.  The
theorems below do not depend on the particular value. -/
def MaxDatagramSize : Nat := 4096

/-- Modelled from the spec: `config.HandleTimeout` (the per-datagram handle
timeout used by `doHandle`) lives in the absent `proxy/config` package; the
spec fixes only that it is one configured duration.  Durations are modelled as
natural-number ticks. -/
def HandleTimeout : Nat := 100

/-- Modelled from the spec: `BytesToMessage` (not under `src/`) is a pure
transformation from the raw bytes to the message view; the core guarantees it
is called with the exact bytes read.  Bytes are modelled as `List Nat`. -/
def BytesToMessage (b : List Nat) : List Nat := b

/-! ## Socket factory: `Dial`, `Listen`, `setSRCSConnectionOptions` -/

/-- Oracle for the OS/network operations `proxy.go` calls:
`net.ResolveUDPAddr`, `net.DialUDP`, `net.ListenUDP`,
`(*net.UDPConn).SetWriteBuffer`, `(*net.UDPConn).SetReadBuffer`. -/
structure NetOps where
  resolve : String → Except GoError UDPAddr
  dialUDP : UDPAddr → Except GoError UDPConn
  listenUDP : UDPAddr → Except GoError UDPConn
  setWriteBuffer : UDPConn → Nat → Option GoError
  setReadBuffer : UDPConn → Nat → Option GoError

/-- `setSRCSConnectionOptions` (proxy.go:120-129): set the write buffer then
the read buffer to `MaxDatagramSize`, returning the first error. -/
def setSRCSConnectionOptions (os : NetOps) (connection : UDPConn) : Option GoError :=
  match os.setWriteBuffer connection MaxDatagramSize with
  | some e => some e
  | none => os.setReadBuffer connection MaxDatagramSize

/-- `Dial` (proxy.go:11-28).  Go returns the pair `(*net.UDPConn, error)`;
both components are modelled so that `nil` results are explicit. -/
def Dial (os : NetOps) (addr : String) : Option UDPConn × Option GoError :=
  match os.resolve addr with
  | Except.error e => (none, some e)
  | Except.ok laddr =>
    match os.dialUDP laddr with
    | Except.error e => (none, some e)
    | Except.ok connection =>
      match setSRCSConnectionOptions os connection with
      | some e => (none, some e)
      | none => (some connection, none)

/-- `Listen` (proxy.go:30-47), same shape as `Dial` with `net.ListenUDP`. -/
def Listen (os : NetOps) (addr : String) : Option UDPConn × Option GoError :=
  match os.resolve addr with
  | Except.error e => (none, some e)
  | Except.ok laddr =>
    match os.listenUDP laddr with
    | Except.error e => (none, some e)
    | Except.ok connection =>
      match setSRCSConnectionOptions os connection with
      | some e => (none, some e)
      | none => (some connection, none)

/-! ## Serve loop and dispatch -/

/-- What one `connection.ReadFromUDP(buf)` call delivers: the bytes written
into the front of the buffer (so the bytes-read count `n` is
`bytes.length`), the sender address, and the returned error. -/
structure ReadResult where
  bytes : List Nat
  addr : UDPAddr
  err : Option GoError
  deriving DecidableEq

/-- The environment of one `for` iteration of `Serve`: the read outcome,
whether the `done` channel is ready at the non-blocking `select` check, and
whether `timer.Reset` reported the timer already expired (the Go code tests
`!timer.Reset(timeout)`, true when the timer had fired or been stopped). -/
structure IterEnv where
  read : ReadResult
  doneFired : Bool
  timerExpired : Bool
  deriving DecidableEq

/-- The loop only observes the error value `handler.Handle` returns for a
given message and sender; the handler is modelled as that function. -/
abbrev Handler := List Nat → UDPAddr → Option GoError

/-- One recorded invocation of `handler.Handle`: the message bytes passed and
the sender address. -/
structure Call where
  msg : List Nat
  addr : UDPAddr
  deriving DecidableEq

/-- How a run of `Serve` ended on the supplied trace: `returned e` when the
function returned (with `none` for `return nil`), `running` when the trace
was exhausted with the loop still iterating. -/
inductive ServeResult where
  | returned (e : Option GoError)
  | running
  deriving DecidableEq

/-- `doHandle` (proxy.go:99-118), loop-observable view: a zero-length buffer
returns `nil` without touching the handler; otherwise the handler is invoked
once on `BytesToMessage buf` and its error is returned verbatim.  The second
component records the handler invocations made. -/
def doHandle (buf : List Nat) (sourceAddr : UDPAddr) (handler : Handler) :
    Option GoError × List Call :=
  if buf.length = 0 then (none, [])
  else
    let msg := BytesToMessage buf
    (handler msg sourceAddr, [⟨msg, sourceAddr⟩])

/-- `Serve` (proxy.go:49-96) over a trace of iteration environments, carrying
the reused read buffer.  Each iteration: the read overwrites the front of the
buffer with `ev.read.bytes` (count `n`), then in source order: the
non-blocking `done` check returns `nil`; then, when `timeout > 0`, a
`timer.Reset` that reports prior expiry returns `nil`; then a read error is
returned; then `doHandle` runs on `buf[:n]` and its error, if any, is
returned; otherwise the loop continues on the remaining trace.  The second
component is the ordered list of handler invocations. -/
def Serve (timeout : Nat) (handler : Handler) :
    List Nat → List IterEnv → ServeResult × List Call
  | _, [] => (ServeResult.running, [])
  | buf, ev :: rest =>
    let n := ev.read.bytes.length
    let buf1 := ev.read.bytes ++ buf.drop n
    if ev.doneFired then (ServeResult.returned none, [])
    else if decide (0 < timeout) && ev.timerExpired then (ServeResult.returned none, [])
    else
      match ev.read.err with
      | some e => (ServeResult.returned (some e), [])
      | none =>
        let res := doHandle (buf1.take n) ev.read.addr handler
        match res.1 with
        | some e => (ServeResult.returned (some e), res.2)
        | none =>
          let r := Serve timeout handler buf1 rest
          (r.1, res.2 ++ r.2)

/-- `Serve` allocates its read buffer with `make([]byte, MaxDatagramSize)`
(proxy.go:54); `serveBufferOrigin` records where that buffer comes from, the
alternative being the pool's `Get`. -/
inductive BufferOrigin where
  | freshAlloc (size : Nat)
  | poolGet
  deriving DecidableEq

/-- The origin of the buffer `Serve` reads into, read off proxy.go:54
(`buf = make([]byte, MaxDatagramSize)`). -/
def serveBufferOrigin : BufferOrigin := BufferOrigin.freshAlloc MaxDatagramSize

/-! ## Buffer pool (`src/unnamed/part_000`) -/

/-- `newBuffer`: `make([]byte, MaxDatagramSize)` — a zeroed full-size buffer. -/
def newBuffer : List Nat := List.replicate MaxDatagramSize 0

/-- The pool state: the multiset of buffers currently lent back via `Put`,
modelled as a list (a `sync.Pool` resolved to one deterministic schedule in
which `Get` prefers a pooled buffer and falls back to `newBuffer`). -/
structure bufferPool where
  stash : List (List Nat)
  deriving DecidableEq

/-- `Put` (part_000:29-31): hand a buffer back to the pool. -/
def bufferPool.Put (bp : bufferPool) (buffer : List Nat) : bufferPool :=
  ⟨buffer :: bp.stash⟩

/-- `Get` (part_000:33-35): take a pooled buffer when one is available,
otherwise the pool's `New` (`newBuffer`); returns it with the new pool
state. -/
def bufferPool.Get (bp : bufferPool) : List Nat × bufferPool :=
  match bp.stash with
  | [] => (newBuffer, bp)
  | b :: rest => (b, ⟨rest⟩)

/-! ## Dispatch context wiring (`doHandle`, proxy.go:104-115)

A Go context is modelled denotationally as its cancellation predicate over
time ticks: `Ctx t = true` when the context is cancelled at tick `t`.
`doHandle` builds `context.WithCancel(context.Background())`, a watcher
cancelling it when `done` fires, then `context.WithTimeout(ctx,
config.HandleTimeout)` with its cancel function deferred. -/

/-- A context as its cancellation predicate over time ticks. -/
abbrev Ctx := Nat → Bool

/-- `context.Background()`: never cancelled. -/
def contextBackground : Ctx := fun _ => false

/-- `context.WithCancel` plus the `go func() { <-done; cancelDone() }`
watcher: cancelled once the parent is, or once `done` has fired
(`doneTime = some d` meaning the done signal fires at tick `d`). -/
def withCancelDone (doneTime : Option Nat) (parent : Ctx) : Ctx :=
  fun t =>
    parent t ||
      match doneTime with
      | some d => decide (d ≤ t)
      | none => false

/-- `context.WithTimeout parent d`, created at tick `start`: cancelled once
the parent is, or once `d` ticks have elapsed since `start`. -/
def withTimeout (start d : Nat) (parent : Ctx) : Ctx :=
  fun t => parent t || decide (start + d ≤ t)

/-- The handler as seen by the context-level model: it also receives the
context built for it. -/
abbrev CtxHandler := Ctx → List Nat → UDPAddr → Option GoError

/-- The observable effects of one `doHandle` call at the context level. -/
structure DispatchEffects where
  handlerCalled : Bool
  ctx : Ctx
  cancelTimeoutCalled : Bool
  result : Option GoError

/-- `doHandle` (proxy.go:99-118), context-level view: on a zero-length buffer
nothing happens; otherwise the cancellable context (watched by the done
signal) is wrapped in the `HandleTimeout` timeout context, the handler is
invoked with it, and — because `cancelTimeout` is deferred — the timeout
context`s cancel function runs when the call returns on every path. -/
def doHandleCtx (doneTime : Option Nat) (start : Nat) (buf : List Nat)
    (sourceAddr : UDPAddr) (handler : CtxHandler) : DispatchEffects :=
  if buf.length = 0 then
    ⟨false, contextBackground, false, none⟩
  else
    let ctx := withCancelDone doneTime contextBackground
    let ctx := withTimeout start HandleTimeout ctx
    let msg := BytesToMessage buf
    ⟨true, ctx, true, handler ctx msg sourceAddr⟩

/-! ## Theorems -/

/-- C2: if the done signal has fired at the per-iteration check right after a
read, `Serve` returns `nil` within that read cycle, dispatches nothing, and —
since the event's read error is arbitrary here — never reports a concurrent
read error. -/
theorem serve_done_returns_nil_before_error_check
    (timeout : Nat) (handler : Handler) (buf : List Nat)
    (ev : IterEnv) (rest : List IterEnv) (hd : ev.doneFired = true) :
    Serve timeout handler buf (ev :: rest) = (ServeResult.returned none, []) := by
  simp [Serve, hd]

/-- Witness for C2 at a concrete event carrying a read error: the error is
not reported and no handler call is made. -/
theorem serve_done_returns_nil_before_error_check_witness :
    Serve 0 (fun _ _ => some 7) []
      [⟨⟨[1, 2, 3], 5, some 9⟩, true, false⟩] = (ServeResult.returned none, []) :=
  serve_done_returns_nil_before_error_check 0 (fun _ _ => some 7) []
    ⟨⟨[1, 2, 3], 5, some 9⟩, true, false⟩ [] rfl

/-- C3: with a positive idle timeout, when the done signal has not fired and
`timer.Reset` reports the timer had already expired, `Serve` returns `nil`
(clean stop) without dispatching the just-read data, whatever the read's
error was. -/
theorem serve_timer_expired_returns_nil
    (timeout : Nat) (handler : Handler) (buf : List Nat)
    (ev : IterEnv) (rest : List IterEnv)
    (ht : 0 < timeout) (hd : ev.doneFired = false) (hexp : ev.timerExpired = true) :
    Serve timeout handler buf (ev :: rest) = (ServeResult.returned none, []) := by
  simp [Serve, hd, hexp, ht]

/-- Witness for C3 at a concrete event whose read failed (error 9): the stop
is still clean. -/
theorem serve_timer_expired_returns_nil_witness :
    Serve 50 (fun _ _ => some 7) []
      [⟨⟨[1, 2], 5, some 9⟩, false, true⟩] = (ServeResult.returned none, []) :=
  serve_timer_expired_returns_nil 50 (fun _ _ => some 7) []
    ⟨⟨[1, 2], 5, some 9⟩, false, true⟩ [] (by decide) rfl rfl

/-- C4: in an iteration where neither the done signal nor the timer stopped
the loop, a non-nil read error is returned exactly as read with no dispatch
and no further reads (the remaining trace is irrelevant); and if the read
succeeded but the dispatched handler returned a non-nil error, that exact
error is returned after the one handler call, again with no further reads. -/
theorem serve_propagates_read_and_handler_errors
    (timeout : Nat) (handler : Handler) (buf : List Nat)
    (ev : IterEnv) (rest : List IterEnv)
    (hd : ev.doneFired = false)
    (hexp : (decide (0 < timeout) && ev.timerExpired) = false) :
    (∀ e, ev.read.err = some e →
      Serve timeout handler buf (ev :: rest) = (ServeResult.returned (some e), [])) ∧
    (∀ e, ev.read.err = none → ev.read.bytes ≠ [] →
      handler ev.read.bytes ev.read.addr = some e →
      Serve timeout handler buf (ev :: rest) =
        (ServeResult.returned (some e), [⟨ev.read.bytes, ev.read.addr⟩])) := by
  constructor
  · intro e he
    simp [Serve, hd, hexp, he]
  · intro e he hb hh
    have htake : (ev.read.bytes ++ buf.drop ev.read.bytes.length).take ev.read.bytes.length
        = ev.read.bytes := List.take_left ev.read.bytes _
    have hlen : ¬ ev.read.bytes.length = 0 := by
      simpa using hb
    simp [Serve, hd, hexp, he, doHandle, htake, hlen, BytesToMessage, hh]

/-- Witness for C4: a read error 9 is propagated on one input, and a handler
error 7 is propagated with exactly one recorded call on another. -/
theorem serve_propagates_read_and_handler_errors_witness :
    Serve 0 (fun _ _ => some 7) []
      [⟨⟨[1], 5, some 9⟩, false, false⟩] = (ServeResult.returned (some 9), []) ∧
    Serve 0 (fun _ _ => some 7) []
      [⟨⟨[1], 5, none⟩, false, false⟩] =
        (ServeResult.returned (some 7), [⟨[1], 5⟩]) := by
  constructor
  · exact (serve_propagates_read_and_handler_errors 0 (fun _ _ => some 7) []
      ⟨⟨[1], 5, some 9⟩, false, false⟩ [] rfl (by decide)).1 9 rfl
  · exact (serve_propagates_read_and_handler_errors 0 (fun _ _ => some 7) []
      ⟨⟨[1], 5, none⟩, false, false⟩ [] rfl (by decide)).2 7 rfl (by decide) rfl

/-- C6: a zero-length read is a no-op: `doHandle` on the empty buffer returns
`nil` and never invokes the handler, so the loop proceeds to the next read
with the buffer unchanged. -/
theorem serve_zero_length_read_is_noop
    (timeout : Nat) (handler : Handler) (sourceAddr : UDPAddr) (buf : List Nat)
    (ev : IterEnv) (rest : List IterEnv)
    (hb : ev.read.bytes = []) (hd : ev.doneFired = false)
    (hexp : (decide (0 < timeout) && ev.timerExpired) = false)
    (he : ev.read.err = none) :
    doHandle [] sourceAddr handler = (none, []) ∧
    Serve timeout handler buf (ev :: rest) = Serve timeout handler buf rest := by
  refine ⟨by simp [doHandle], ?_⟩
  simp [Serve, hd, hexp, he, hb, doHandle]

/-- Witness for C6 on a one-event trace with an empty datagram: the run ends
still `running` with no handler calls. -/
theorem serve_zero_length_read_is_noop_witness :
    doHandle [] 5 (fun _ _ => some 7) = (none, []) ∧
    Serve 0 (fun _ _ => some 7) [9, 9]
      [⟨⟨[], 5, none⟩, false, false⟩] = Serve 0 (fun _ _ => some 7) [9, 9] [] :=
  serve_zero_length_read_is_noop 0 (fun _ _ => some 7) 5 [9, 9]
    ⟨⟨[], 5, none⟩, false, false⟩ [] rfl rfl (by decide) rfl

/-- C1: over any trace in which the done signal never fires at the check, the
timer reset never reports expiry, every read succeeds, and the handler
accepts every message, `Serve` keeps running and the handler is invoked
exactly once per non-empty datagram, in read order, with the message being
exactly the first `n` bytes of the read buffer — which, since the read wrote
`ev.read.bytes` (of length `n`) into the front of the buffer, is exactly
`ev.read.bytes`. -/
theorem serve_handles_each_datagram_in_order
    (timeout : Nat) (handler : Handler) (buf : List Nat) (trace : List IterEnv)
    (hok : ∀ ev ∈ trace, ev.doneFired = false ∧
      (decide (0 < timeout) && ev.timerExpired) = false ∧
      ev.read.err = none ∧ handler ev.read.bytes ev.read.addr = none) :
    Serve timeout handler buf trace =
      (ServeResult.running,
        trace.filterMap (fun ev =>
          if ev.read.bytes.length = 0 then none
          else some ⟨ev.read.bytes, ev.read.addr⟩)) := by
  induction trace generalizing buf with
  | nil => simp [Serve]
  | cons ev rest ih =>
    obtain ⟨hd, hexp, he, hh⟩ := hok ev (by simp)
    have hrest : ∀ e ∈ rest, e.doneFired = false ∧
        (decide (0 < timeout) && e.timerExpired) = false ∧
        e.read.err = none ∧ handler e.read.bytes e.read.addr = none :=
      fun e he2 => hok e (List.mem_cons_of_mem _ he2)
    have htake : (ev.read.bytes ++ buf.drop ev.read.bytes.length).take
        ev.read.bytes.length = ev.read.bytes := List.take_left ev.read.bytes _
    by_cases hb : ev.read.bytes.length = 0
    · have hb2 : ev.read.bytes = [] := List.length_eq_zero.mp hb
      simp [Serve, hd, hexp, he, doHandle, htake, hb, hb2, ih _ hrest]
    · have hb2 : ¬ ev.read.bytes = [] := fun h0 => hb (by simp [h0])
      simp [Serve, hd, hexp, he, doHandle, htake, hb, hb2, BytesToMessage, hh,
        ih _ hrest]

/-- Witness for C1: three reads (the middle one empty) produce exactly the
two non-empty datagrams as handler calls, in order, with their exact bytes. -/
theorem serve_handles_each_datagram_in_order_witness :
    Serve 0 (fun _ _ => none) (List.replicate 4 9)
      [⟨⟨[1, 2], 5, none⟩, false, false⟩,
       ⟨⟨[], 6, none⟩, false, false⟩,
       ⟨⟨[3], 7, none⟩, false, false⟩] =
      (ServeResult.running, [⟨[1, 2], 5⟩, ⟨[3], 7⟩]) := by
  refine (serve_handles_each_datagram_in_order 0 (fun _ _ => none)
    (List.replicate 4 9)
    [⟨⟨[1, 2], 5, none⟩, false, false⟩,
     ⟨⟨[], 6, none⟩, false, false⟩,
     ⟨⟨[3], 7, none⟩, false, false⟩] (by decide)).trans ?_
  decide

/-- C5: for every dispatch of a non-empty datagram, the context handed to the
handler is cancelled at a tick exactly when the done signal has fired by that
tick or `HandleTimeout` has elapsed since dispatch start (whichever occurs
first cancels it), and the deferred `cancelTimeout` releases the timeout
context when the dispatch returns — for every handler, succeeding or
failing. -/
theorem doHandle_ctx_cancellation_and_release
    (doneTime : Option Nat) (start : Nat) (buf : List Nat) (sourceAddr : UDPAddr)
    (handler : CtxHandler) (hb : buf ≠ []) :
    (∀ t, (doHandleCtx doneTime start buf sourceAddr handler).ctx t = true ↔
      ((∃ d, doneTime = some d ∧ d ≤ t) ∨ start + HandleTimeout ≤ t)) ∧
    (doHandleCtx doneTime start buf sourceAddr handler).cancelTimeoutCalled = true ∧
    (doHandleCtx doneTime start buf sourceAddr handler).handlerCalled = true := by
  have hlen : ¬ buf.length = 0 := by simpa using hb
  refine ⟨?_, ?_, ?_⟩
  · intro t
    cases doneTime with
    | none =>
      simp [doHandleCtx, hlen, withTimeout, withCancelDone, contextBackground]
    | some d =>
      simp [doHandleCtx, hlen, withTimeout, withCancelDone, contextBackground]
  · simp [doHandleCtx, hlen]
  · simp [doHandleCtx, hlen]

/-- Witness for C5 at a concrete dispatch with the done signal at tick 5 and
dispatch start 2, sampled at tick 6. -/
theorem doHandle_ctx_cancellation_and_release_witness :
    ((doHandleCtx (some 5) 2 [1, 2] 7 (fun _ _ _ => some 3)).ctx 6 = true ↔
      ((∃ d, (some 5 : Option Nat) = some d ∧ d ≤ 6) ∨ 2 + HandleTimeout ≤ 6)) ∧
    (doHandleCtx (some 5) 2 [1, 2] 7 (fun _ _ _ => some 3)).cancelTimeoutCalled = true :=
  ⟨(doHandle_ctx_cancellation_and_release (some 5) 2 [1, 2] 7
      (fun _ _ _ => some 3) (by decide)).1 6,
   (doHandle_ctx_cancellation_and_release (some 5) 2 [1, 2] 7
      (fun _ _ _ => some 3) (by decide)).2.1⟩

/-- C7 counterexample: the buffer `Serve` reads into is not drawn from the
Buffer Pool. -/
theorem serve_buffer_not_from_pool : serveBufferOrigin ≠ BufferOrigin.poolGet := by
  decide

/-- C7 amended: `Serve` allocates its read buffer directly with
`make([]byte, MaxDatagramSize)` (proxy.go:54), independently of the Buffer
Pool. -/
theorem serve_buffer_fresh_make :
    serveBufferOrigin = BufferOrigin.freshAlloc MaxDatagramSize := rfl

/-- C8: `Dial` and `Listen` each fail with the resolution error on a
malformed address; on a resolved address each fails with the socket error
when opening fails; after a successful open each returns the option-setting
error when option setting fails, and returns the opened connection with a
nil error when it succeeds; and option setting succeeds exactly when both the
write-buffer and the read-buffer sizing at `MaxDatagramSize` succeed. -/
theorem dial_listen_resolution_open_options
    (os : NetOps) (addr : String) :
    (∀ e, os.resolve addr = Except.error e →
      Dial os addr = (none, some e) ∧ Listen os addr = (none, some e)) ∧
    (∀ a, os.resolve addr = Except.ok a →
      (∀ e, os.dialUDP a = Except.error e → Dial os addr = (none, some e)) ∧
      (∀ c, os.dialUDP a = Except.ok c →
        (∀ e, setSRCSConnectionOptions os c = some e →
          Dial os addr = (none, some e)) ∧
        (setSRCSConnectionOptions os c = none → Dial os addr = (some c, none))) ∧
      (∀ e, os.listenUDP a = Except.error e → Listen os addr = (none, some e)) ∧
      (∀ c, os.listenUDP a = Except.ok c →
        (∀ e, setSRCSConnectionOptions os c = some e →
          Listen os addr = (none, some e)) ∧
        (setSRCSConnectionOptions os c = none → Listen os addr = (some c, none)))) ∧
    (∀ c, setSRCSConnectionOptions os c = none ↔
      (os.setWriteBuffer c MaxDatagramSize = none ∧
       os.setReadBuffer c MaxDatagramSize = none)) := by
  refine ⟨?_, ?_, ?_⟩
  · intro e he
    constructor <;> simp [Dial, Listen, he]
  · intro a ha
    refine ⟨?_, ?_, ?_, ?_⟩
    · intro e he
      simp [Dial, ha, he]
    · intro c hc
      constructor
      · intro e he
        simp [Dial, ha, hc, he]
      · intro hopt
        simp [Dial, ha, hc, hopt]
    · intro e he
      simp [Listen, ha, he]
    · intro c hc
      constructor
      · intro e he
        simp [Listen, ha, hc, he]
      · intro hopt
        simp [Listen, ha, hc, hopt]
  · intro c
    cases hw : os.setWriteBuffer c MaxDatagramSize with
    | none => simp [setSRCSConnectionOptions, hw]
    | some e => simp [setSRCSConnectionOptions, hw]

/-- Concrete network oracle for witnesses: "good" resolves, everything else
fails to resolve; address 1 opens; option setting succeeds. -/
def netOpsW : NetOps :=
  { resolve := fun s => if s = "good" then Except.ok 1 else Except.error 11
    dialUDP := fun a => if a = 1 then Except.ok 2 else Except.error 12
    listenUDP := fun a => if a = 1 then Except.ok 3 else Except.error 13
    setWriteBuffer := fun _ _ => none
    setReadBuffer := fun _ _ => none }

/-- Witness for C8: a full successful `Dial` and a failed resolution for
`Listen` on the concrete oracle. -/
theorem dial_listen_resolution_open_options_witness :
    Dial netOpsW "good" = (some 2, none) ∧ Listen netOpsW "bad" = (none, some 11) :=
  ⟨(((dial_listen_resolution_open_options netOpsW "good").2.1 1 rfl).2.1
      2 rfl).2 rfl,
   ((dial_listen_resolution_open_options netOpsW "bad").1 11 rfl).2⟩

/-- C9: under the precondition that every buffer handed back with `Put` has
size `MaxDatagramSize`, every buffer `Get` returns has size
`MaxDatagramSize`; and the contents are unspecified: a `Get` right after a
`Put` hands back the very same buffer, stale contents intact. -/
theorem bufferPool_get_full_size
    (bp : bufferPool) (hbp : ∀ b ∈ bp.stash, b.length = MaxDatagramSize) :
    ((bp.Get).1).length = MaxDatagramSize ∧
    ∀ b, (bp.Put b).Get = (b, bp) := by
  constructor
  · cases h : bp.stash with
    | nil => simp [bufferPool.Get, h, newBuffer]
    | cons b rest =>
      have hb := hbp b (by simp [h])
      simp [bufferPool.Get, h, hb]
  · intro b
    cases bp with
    | mk stash => rfl

/-- Witness for C9 on the empty pool: the fresh buffer is full-size, and a
dirty buffer put then got comes back unchanged. -/
theorem bufferPool_get_full_size_witness :
    ((bufferPool.Get ⟨[]⟩).1).length = MaxDatagramSize ∧
    (bufferPool.Put ⟨[]⟩ [7]).Get = ([7], ⟨[]⟩) :=
  ⟨(bufferPool_get_full_size ⟨[]⟩ (by simp)).1,
   (bufferPool_get_full_size ⟨[]⟩ (by simp)).2 [7]⟩

/-- C10: whenever `Dial` or `Listen` returns a non-nil error — from
resolution, from opening the socket, or from option setting after the socket
was already opened — the connection component returned with it is `nil`. -/
theorem dial_listen_connection_nil_on_error
    (os : NetOps) (addr : String) (e : GoError) :
    ((Dial os addr).2 = some e → (Dial os addr).1 = none) ∧
    ((Listen os addr).2 = some e → (Listen os addr).1 = none) := by
  constructor
  · intro h
    cases hr : os.resolve addr with
    | error e2 => simp [Dial, hr]
    | ok a =>
      cases hdl : os.dialUDP a with
      | error e2 => simp [Dial, hr, hdl]
      | ok c =>
        cases hopt : setSRCSConnectionOptions os c with
        | none => simp [Dial, hr, hdl, hopt] at h
        | some e2 => simp [Dial, hr, hdl, hopt]
  · intro h
    cases hr : os.resolve addr with
    | error e2 => simp [Listen, hr]
    | ok a =>
      cases hdl : os.listenUDP a with
      | error e2 => simp [Listen, hr, hdl]
      | ok c =>
        cases hopt : setSRCSConnectionOptions os c with
        | none => simp [Listen, hr, hdl, hopt] at h
        | some e2 => simp [Listen, hr, hdl, hopt]

/-- Concrete oracle where the socket opens but write-buffer sizing fails,
exercising the branch in which an already-opened connection must not be
returned. -/
def netOpsFailOpts : NetOps :=
  { resolve := fun _ => Except.ok 1
    dialUDP := fun _ => Except.ok 2
    listenUDP := fun _ => Except.ok 3
    setWriteBuffer := fun _ _ => some 21
    setReadBuffer := fun _ _ => none }

/-- Witness for C10: with option setting failing after a successful open,
both `Dial` and `Listen` return a nil connection. -/
theorem dial_listen_connection_nil_on_error_witness :
    (Dial netOpsFailOpts "x").1 = none ∧ (Listen netOpsFailOpts "x").1 = none :=
  ⟨(dial_listen_connection_nil_on_error netOpsFailOpts "x" 21).1 (by decide),
   (dial_listen_connection_nil_on_error netOpsFailOpts "x" 21).2 (by decide)⟩
